import Mathlib

/-!
Shallow embedding of the Web-Scraper-Desktop harvesting core
(`ScraperEngine`, `CsvUtils`, `FileUtils`, `Bypass`, `LogoCapture`,
`AISmartScrape`) and proofs about its dedup/scheduling/aggregation
behaviour.

JavaScript string builtins (`split`, `trim`, `includes`) are modelled by
executable functions over the character list of a `String`; browser,
network and filesystem effects are modelled by explicit environment
records describing the outcome of each effectful call, exactly following
the `try`/`catch` structure of the source.
-/

namespace Scraper

/-! ## JavaScript string builtins (models of `String.prototype` methods) -/

/-- Model of the JS whitespace class used by `String.prototype.trim`. -/
def isSpaceChar (c : Char) : Bool :=
  c = ' ' || c = '\t' || c = '\n' || c = '\r'

/-- Model of `s.trim()`: strip leading and trailing whitespace. -/
def jsTrim (s : String) : String :=
  String.mk (((s.toList.dropWhile isSpaceChar).reverse.dropWhile isSpaceChar).reverse)

/-- Splitter for `s.split(c)` on a single-character separator. -/
def jsSplitAux (c : Char) : List Char → List Char → List (List Char)
  | [], acc => [acc.reverse]
  | x :: xs, acc =>
    if x = c then acc.reverse :: jsSplitAux c xs []
    else jsSplitAux c xs (x :: acc)

/-- Model of `s.split(c)` for a one-character separator string. -/
def jsSplit (s : String) (c : Char) : List String :=
  (jsSplitAux c s.toList []).map String.mk

/-- Helper for `s.includes(sub)` over character lists. -/
def hasSegment (sub : List Char) : List Char → Bool
  | [] => sub.isEmpty
  | x :: xs => sub.isPrefixOf (x :: xs) || hasSegment sub xs

/-- Model of `s.includes(sub)`. -/
def jsIncludes (s sub : String) : Bool :=
  hasSegment sub.toList s.toList

/-! ## Data model (`src/utils/types.ts`) -/

/-- The `Status` union of `ScrapeResult`:
`'SUCCESS' | 'ERROR' | 'SKIPPED' | 'DUPLICATE'`. -/
inductive ScrapeStatus
  | SUCCESS
  | ERROR
  | SKIPPED
  | DUPLICATE
deriving DecidableEq, Repr

/-- `InputRow`. The optional selector fields (`string | undefined` in TS,
falsy when absent or empty) are modelled as `String` with `""` for the
absent/empty case, which is equivalent under every truthiness test the
source performs on them. -/
structure InputRow where
  BaseName : String
  URL : String
  CSSSelector : String
  XPathSelector : String
deriving DecidableEq, Repr

/-- `ScrapeResult`. -/
structure ScrapeResult where
  ScreenshotFile : String
  LogoFile : String
  ScrapedData : String
  Status : ScrapeStatus
  ErrorMessage : String
deriving DecidableEq, Repr

/-- A row of the output table: `OutputRow = InputRow & ScrapeResult`,
after `generateOutputCsv` replaces missing values by `''`. -/
structure OutputRow where
  BaseName : String
  URL : String
  CSSSelector : String
  XPathSelector : String
  ScreenshotFile : String
  LogoFile : String
  ScrapedData : String
  Status : ScrapeStatus
  ErrorMessage : String
deriving DecidableEq, Repr

/-- The `selectors` sub-object of `ScraperConfig`. -/
structure Selectors where
  css : String
  xpath : String
deriving DecidableEq, Repr

/-- `ScraperConfig`. -/
structure ScraperConfig where
  inputCsvPath : String
  outputDirPath : String
  imageSubFolder : String
  selectors : Selectors
  useAISmartScrape : Bool
  concurrency : Nat
  aiApiKey : String
deriving DecidableEq, Repr

/-- `LogMessage` level union `'INFO' | 'WARN' | 'ERROR'`. -/
inductive LogLevel
  | INFO
  | WARN
  | ERROR
deriving DecidableEq, Repr

/-- `LogMessage`. -/
structure LogMessage where
  level : LogLevel
  message : String
  timestamp : Nat
deriving DecidableEq, Repr

/-- `ScrapeMap = Map<string, ScrapeResult>`, as an insertion-ordered
association list (the iteration/ordering semantics of a JS `Map`). -/
abbrev ScrapeMap := List (String × ScrapeResult)

/-- `Map.has`. -/
def mapHas (m : ScrapeMap) (k : String) : Bool :=
  m.any (fun p => p.1 == k)

/-- `Map.get` (`undefined` becomes `none`). -/
def mapGet (m : ScrapeMap) (k : String) : Option ScrapeResult :=
  (m.find? (fun p => p.1 == k)).map Prod.snd

/-- `Map.set`: update the value in place when the key is present,
append a new entry otherwise. -/
def mapSet (m : ScrapeMap) (k : String) (v : ScrapeResult) : ScrapeMap :=
  if mapHas m k then m.map (fun p => if p.1 == k then (k, v) else p)
  else m ++ [(k, v)]

/-! ## `FileUtils.ts` -/

/-- `toFileSafeName`: replace `/\:*?"<>|` by `_`, then `trim()`. -/
def toFileSafeName (name : String) : String :=
  jsTrim (String.mk (name.toList.map
    (fun c => if "/\\:*?\"<>|".toList.contains c then '_' else c)))

/-- `getImagePath` (paths joined with `/`, the POSIX form of `path.join`);
returns `(fullPath, relativePath)`. -/
def getImagePath (baseDir imageSubFolder baseName ty : String) (index : Nat) :
    String × String :=
  let safeBaseName := toFileSafeName baseName
  let fileName :=
    if ty == "screenshot" then safeBaseName ++ ".png"
    else safeBaseName ++ "-" ++ toString index ++ ".png"
  (baseDir ++ "/" ++ imageSubFolder ++ "/" ++ fileName,
   imageSubFolder ++ "/" ++ fileName)

/-! ## Log buffer (`ScraperEngine.log`) -/

/-- One append to `this.logMessages`: push, then
`if (length > 500) splice(0, 100)`. -/
def logAppend (buf : List LogMessage) (m : LogMessage) : List LogMessage :=
  let b := buf ++ [m]
  if b.length > 500 then b.drop 100 else b

/-! ## `parseInputCsv` (`CsvUtils.ts`): URL deduplication -/

/-- One iteration of the dedup loop of `parseInputCsv`:
`if (row.URL && !uniqueUrls.has(row.URL)) uniqueUrls.set(row.URL, row)`. -/
def dedupStep (m : List (String × InputRow)) (row : InputRow) :
    List (String × InputRow) :=
  if row.URL != "" && !(m.any (fun p => p.1 == row.URL)) then m ++ [(row.URL, row)]
  else m

/-- The dedup loop of `parseInputCsv`: `uniqueUrls` maps each non-blank
URL to the *first* input row that introduced it, in first-seen order. -/
def uniqueUrlsOf (rows : List InputRow) : List (String × InputRow) :=
  rows.foldl dedupStep []

/-! ## `Bypass.ts` -/

/-- `COMMON_POPUP_SELECTORS`. -/
def COMMON_POPUP_SELECTORS : List String :=
  [ "text=/accept|i agree|ok|got it/i",
    "[class*=\"cookie\"] button",
    "[id*=\"cookie\"] button",
    "[aria-label*=\"close\"]",
    "[class*=\"modal-close\"]",
    "[class*=\"popup-close\"]",
    "[class*=\"dismiss\"]",
    "button[title*=\"Close\"]",
    "button:has-text(\"No thanks\")",
    "div[style*=\"position: fixed\"][style*=\"z-index: 9999\"]",
    "div[id*=\"backdrop\"]" ]

/-- Outcome of the page-side effects for one popup heuristic: `none` when
no visible element (or a lookup exception, caught by the source), else
the element's `tagName` together with whether a click would succeed. -/
structure BypassEnv where
  visibleTag : String → Option String
  clickOk : String → Bool

/-- Observable action taken for one heuristic selector. -/
inductive PopupAction
  | clicked (selector : String)
  | removedOverlay (selector : String)
deriving DecidableEq, Repr

/-- One iteration of the `attemptBypass` loop; every failure inside it is
caught (`catch (e) \x7b\x7d`), so the step is total and yields at most one
action. -/
def bypassStep (env : BypassEnv) (selector : String) : Option PopupAction :=
  match env.visibleTag selector with
  | none => none
  | some tag =>
    if tag == "BUTTON" || tag == "A" || jsIncludes selector "text=" then
      if env.clickOk selector then some (.clicked selector) else none
    else if tag == "DIV" || tag == "SECTION" then
      some (.removedOverlay selector)
    else none

/-- `attemptBypass`: runs every heuristic in order, never throws; its
only observable result is the list of page actions performed. -/
def attemptBypass (env : BypassEnv) : List PopupAction :=
  COMMON_POPUP_SELECTORS.filterMap (bypassStep env)

/-! ## `LogoCapture.ts` -/

/-- `LOGO_HEURISTICS_SELECTORS`. -/
def LOGO_HEURISTICS_SELECTORS : List String :=
  [ "header :is(img, svg)[alt*=\"logo\" i], header :is(img, svg)[class*=\"logo\" i]",
    "header :is(img, svg)[id*=\"logo\" i], header :is(img, svg)[aria-label*=\"logo\" i]",
    "[class*=\"brand-logo\" i], [id*=\"header-logo\" i], [class*=\"site-logo\" i]",
    "body > header img, body > .nav img, body > .header img" ]

/-- Page-side outcomes for `captureLogo`: whether `page.$$(selector)`
returns a non-empty list (an exception is caught and acts like an empty
result), and whether the element screenshot succeeds. -/
structure LogoEnv where
  elementsFound : String → Bool
  shotOk : Bool

/-- `captureLogo`: first matching heuristic wins; a capture failure is
caught and returns `none` (`null`). -/
def captureLogo (env : LogoEnv) (baseName outputDir imageSubFolder : String) :
    Option String :=
  match LOGO_HEURISTICS_SELECTORS.find? env.elementsFound with
  | none => none
  | some _ =>
    if env.shotOk then
      some (getImagePath outputDir imageSubFolder baseName "logo" 1).2
    else none

/-! ## `AISmartScrape.ts` -/

/-- Outcome of the `fetch` call and response decoding in `aiSmartScrape`:
a thrown network/JSON error (caught), a non-2xx response, or a decoded
body whose `candidates?.[0]?.content?.parts?.[0]?.text` is the given
optional string. -/
inductive FetchOutcome
  | netError
  | httpError
  | parsed (candidateText : Option String)
deriving DecidableEq, Repr

/-- External-world outcomes for one `aiSmartScrape` call:
`pageHtml = none` models `page.evaluate` throwing (caught). -/
structure AiEnv where
  pageHtml : Option String
  fetch : FetchOutcome

/-- `aiSmartScrape`: returns the raw JSON text of the first candidate, or
`none` on a missing API key, HTML-fetch failure, HTTP error, network/JSON
exception, or a falsy (absent or empty) candidate text. Never throws. -/
def aiSmartScrape (env : AiEnv) (aiApiKey : String) : Option String :=
  if aiApiKey == "" then none
  else
    match env.pageHtml with
    | none => none
    | some _pageHtml =>
      match env.fetch with
      | .netError => none
      | .httpError => none
      | .parsed none => none
      | .parsed (some jsonText) => if jsonText == "" then none else some jsonText

/-! ## Selector-driven extraction (`ScraperEngine.scrapeCustomData`) -/

/-- `selector.split(',').map(s => s.trim()).filter(s => s)`. -/
def splitSelectors (s : String) : List String :=
  ((jsSplit s ',').map jsTrim).filter (fun e => e != "")

/-- One entry of the selector spec:
`selector.includes('=') ? selector.split('=', 2).map(s => s.trim()) :
['data', selector]`. JS `split('=', 2)` keeps only the first two
segments, so text after a second `=` is discarded. -/
def parseSelectorEntry (selector : String) : String × String :=
  match jsSplit selector '=' with
  | [] => ("data", selector)
  | [_] => ("data", selector)
  | name :: query :: _ => (jsTrim name, jsTrim query)

/-- Page-side outcome of resolving one `(type, query)` selector:
`none` when `locator/first/textContent` threw (caught), `some t` when
`textContent` returned `t` (`null` behaves exactly like `""` under the
source's truthiness test, so both are modelled by `""`). -/
structure SelEnv where
  textContent : String → String → Option String

/-- JS object insert/update (`data[name] = v`): keys are unique, later
assignments overwrite in place. -/
def objSet (d : List (String × Option String)) (k : String) (v : Option String) :
    List (String × Option String) :=
  if d.any (fun p => p.1 == k) then d.map (fun p => if p.1 == k then (k, v) else p)
  else d ++ [(k, v)]

/-- `scrapeCustomData`: row-level selector specs fully override the
global config; CSS entries first, then XPath; a thrown lookup records
`null`, a falsy text records nothing, a truthy text records its trim. -/
def scrapeCustomData (cfg : ScraperConfig) (row : InputRow) (env : SelEnv) :
    List (String × Option String) :=
  let cssSelectors :=
    splitSelectors (if row.CSSSelector != "" then row.CSSSelector else cfg.selectors.css)
  let xpathSelectors :=
    splitSelectors (if row.XPathSelector != "" then row.XPathSelector else cfg.selectors.xpath)
  let allSelectors :=
    cssSelectors.map (fun s => ("css", s)) ++ xpathSelectors.map (fun s => ("xpath", s))
  allSelectors.foldl
    (fun data ts =>
      let nq := parseSelectorEntry ts.2
      if nq.2 == "" then data
      else
        match env.textContent ts.1 nq.2 with
        | none => objSet data nq.1 none
        | some t => if t != "" then objSet data nq.1 (some (jsTrim t)) else data)
    []

/-- Model of the `JSON.stringify` builtin on the extracted-data object. -/
def jsonValueStr : Option String → String
  | none => "null"
  | some s => "\"" ++ s ++ "\""

/-- Comma join used by the `JSON.stringify` model. -/
def joinComma : List String → String
  | [] => ""
  | [x] => x
  | x :: y :: xs => x ++ "," ++ joinComma (y :: xs)

/-- Model of `JSON.stringify(data)` for the flat string/null object. -/
def jsonStringify (d : List (String × Option String)) : String :=
  "\x7b" ++ joinComma (d.map (fun p => "\"" ++ p.1 ++ "\":" ++ jsonValueStr p.2)) ++ "\x7d"

/-! ## The per-URL pipeline (`ScraperEngine.scrapeUrl`) -/

/-- External-world outcomes for one `scrapeUrl` call. Navigation failure
covers the page-acquisition/`page.goto` exceptions (hard timeout or
network error); the `networkidle` wait has its own `.catch` in the source
and so never affects the result. -/
structure PageEnv where
  navOk : Bool
  navErrorMsg : String
  networkIdleOk : Bool
  bypass : BypassEnv
  screenshotOk : Bool
  screenshotErrorMsg : String
  logo : LogoEnv
  sel : SelEnv
  ai : AiEnv

/-- The initializer of `result` in `scrapeUrl`. -/
def initialResult : ScrapeResult :=
  { ScreenshotFile := ""
    LogoFile := ""
    ScrapedData := "\x7b\x7d"
    Status := .ERROR
    ErrorMessage := "Start of scrape." }

/-- `selectorsProvided = firstRow.CSSSelector || firstRow.XPathSelector
|| config.selectors.css || config.selectors.xpath` (string truthiness). -/
def selectorsProvided (cfg : ScraperConfig) (row : InputRow) : Bool :=
  row.CSSSelector != "" || row.XPathSelector != "" ||
    cfg.selectors.css != "" || cfg.selectors.xpath != ""

/-- `scrapeUrl`: the `try` block in stage order, with the `catch` branch
recording the thrown message as an `ERROR` result. `attemptBypass` and
`captureLogo` are total, so only navigation and the full-page screenshot
can reach the `catch`. -/
def scrapeUrl (cfg : ScraperConfig) (firstRow : InputRow) (env : PageEnv) :
    ScrapeResult :=
  if env.navOk then
    let _actions := attemptBypass env.bypass
    if env.screenshotOk then
      let ssRelPath :=
        (getImagePath cfg.outputDirPath cfg.imageSubFolder firstRow.BaseName "screenshot" 1).2
      let result1 := { initialResult with ScreenshotFile := ssRelPath }
      let logoRelPath := captureLogo env.logo firstRow.BaseName cfg.outputDirPath cfg.imageSubFolder
      let result2 := { result1 with LogoFile := logoRelPath.getD "" }
      let scrapedData :=
        if selectorsProvided cfg firstRow then scrapeCustomData cfg firstRow env.sel else []
      let result3 :=
        if selectorsProvided cfg firstRow then result2
        else if cfg.useAISmartScrape then
          match aiSmartScrape env.ai cfg.aiApiKey with
          | some aiResultJson =>
            if aiResultJson != "" then { result2 with ScrapedData := aiResultJson } else result2
          | none => result2
        else result2
      let result4 :=
        if scrapedData.length > 0 then { result3 with ScrapedData := jsonStringify scrapedData }
        else result3
      { result4 with Status := .SUCCESS, ErrorMessage := "" }
    else { initialResult with Status := .ERROR, ErrorMessage := env.screenshotErrorMsg }
  else { initialResult with Status := .ERROR, ErrorMessage := env.navErrorMsg }

/-! ## Result aggregation (`ScraperEngine.start`, steps 4-5) -/

/-- One iteration of the `inputRows.forEach((row, index) => ...)`
duplicate-handling loop in `start`. -/
def dupStep (scrapeResults : ScrapeMap) (fm : ScrapeMap) (idxRow : Nat × InputRow) :
    ScrapeMap :=
  if idxRow.1 == 0 || !(mapHas fm idxRow.2.URL) then fm
  else
    match mapGet scrapeResults idxRow.2.URL with
    | some existingResult =>
      mapSet fm idxRow.2.URL
        { existingResult with
            Status := .DUPLICATE
            ErrorMessage := "Result shared from first instance of this URL." }
    | none => fm

/-- Build `finalScrapeMap`: copy `scrapeResults` entry by entry (which
reproduces the same insertion-ordered map), then run the duplicate loop
over all input rows with their indices. -/
def buildFinalScrapeMap (inputRows : List InputRow) (scrapeResults : ScrapeMap) :
    ScrapeMap :=
  inputRows.enum.foldl (dupStep scrapeResults) scrapeResults

/-! ## `generateOutputCsv` (`CsvUtils.ts`): the output row table -/

/-- The row-building loop of `generateOutputCsv` (the final
`Papa.unparse` serialization is outside the model); missing values become
`''` via the `completeRow` fill. -/
def generateOutputRows (inputRows : List InputRow) (scrapeResults : ScrapeMap) :
    List OutputRow :=
  inputRows.map (fun row =>
    match mapGet scrapeResults row.URL with
    | some result =>
      { BaseName := row.BaseName
        URL := row.URL
        CSSSelector := row.CSSSelector
        XPathSelector := row.XPathSelector
        ScreenshotFile := result.ScreenshotFile
        LogoFile := result.LogoFile
        ScrapedData := result.ScrapedData
        Status := result.Status
        ErrorMessage := result.ErrorMessage }
    | none =>
      { BaseName := row.BaseName
        URL := row.URL
        CSSSelector := row.CSSSelector
        XPathSelector := row.XPathSelector
        ScreenshotFile := ""
        LogoFile := ""
        ScrapedData := ""
        Status := .ERROR
        ErrorMessage := "Internal error: URL not found in results map." })

/-! ## The run (`ScraperEngine.start`) -/

/-- The result-producing skeleton of `start`: dedup the rows, scrape the
first `k` unique URLs (workers advance a shared cursor, and every started
URL runs to completion, so the processed set after a completed or
cancelled run is a prefix of the unique-URL queue; `k ≥` queue length is
a completed run), aggregate, and build the output table. `envOf` gives
the external-world outcome for each URL. -/
def runScrape (cfg : ScraperConfig) (inputRows : List InputRow)
    (envOf : String → PageEnv) (k : Nat) : List OutputRow :=
  let uniqueUrls := uniqueUrlsOf inputRows
  let scrapeResults : ScrapeMap :=
    (uniqueUrls.take k).map (fun p => (p.1, scrapeUrl cfg p.2 (envOf p.1)))
  generateOutputRows inputRows (buildFinalScrapeMap inputRows scrapeResults)

/-! ## Concrete fixtures used by closed theorems and witnesses -/

/-- Spec example row A (`{BaseName:"A",URL:"u1"}`). -/
def rowA : InputRow := { BaseName := "A", URL := "u1", CSSSelector := "", XPathSelector := "" }

/-- Spec example row B (`{BaseName:"B",URL:"u1"}`). -/
def rowB : InputRow := { BaseName := "B", URL := "u1", CSSSelector := "", XPathSelector := "" }

/-- Spec example row C (`{BaseName:"C",URL:"u2"}`). -/
def rowC : InputRow := { BaseName := "C", URL := "u2", CSSSelector := "", XPathSelector := "" }

/-- A configuration with no global selectors and AI fallback disabled. -/
def exCfg : ScraperConfig :=
  { inputCsvPath := "in.csv", outputDirPath := "out", imageSubFolder := "images",
    selectors := { css := "", xpath := "" }, useAISmartScrape := false,
    concurrency := 2, aiApiKey := "" }

/-- An external world where navigation and the screenshot succeed and
all best-effort stages find nothing. -/
def exEnv : PageEnv :=
  { navOk := true, navErrorMsg := "", networkIdleOk := true,
    bypass := { visibleTag := fun _ => none, clickOk := fun _ => false },
    screenshotOk := true, screenshotErrorMsg := "",
    logo := { elementsFound := fun _ => false, shotOk := false },
    sel := { textContent := fun _ _ => none },
    ai := { pageHtml := none, fetch := .netError } }

/-- A log entry used by the C4 witness. -/
def exMsg : LogMessage := { level := .INFO, message := "x", timestamp := 0 }

/-! ## C1, C2: the duplicate-relabelling loop of `start` -/

/-- **C1** (code_bug evidence). On the spec's three-row example
`[A:u1, B:u1, C:u2]` after a completed run in which every pipeline
result is SUCCESS, the aggregation loop of `start` overwrites the single
URL-keyed map entry with a DUPLICATE clone for every row of index ≥ 1
whose URL was scraped, so ALL three output rows (the first occurrence of
u1 included) carry status DUPLICATE — no row for the twice-occurring URL
u1 keeps the SUCCESS/ERROR status the claim requires. -/
theorem first_occurrence_overwritten_to_duplicate :
    (runScrape exCfg [rowA, rowB, rowC] (fun _ => exEnv) 2).map OutputRow.Status
      = [.DUPLICATE, .DUPLICATE, .DUPLICATE] ∧
    (scrapeUrl exCfg rowA exEnv).Status = .SUCCESS ∧
    (scrapeUrl exCfg rowC exEnv).Status = .SUCCESS := by decide

/-- **C2** (code_bug evidence). On the input `[A:u1, C:u2]`, whose two
rows have distinct URLs (each row is its URL's first-seen row), a
completed all-SUCCESS run still outputs DUPLICATE for row C: the loop in
`start` relabels the map entry of every row at index ≥ 1, so a first-seen
row does not receive the pipeline's recorded result unchanged. -/
theorem unique_url_row_marked_duplicate :
    (runScrape exCfg [rowA, rowC] (fun _ => exEnv) 2).map OutputRow.Status
      = [.SUCCESS, .DUPLICATE] ∧
    (scrapeUrl exCfg rowC exEnv).Status = .SUCCESS := by decide

/-! ## C4: the bounded log buffer -/

theorem logAppend_length_le (buf : List LogMessage) (m : LogMessage)
    (h : buf.length ≤ 500) : (logAppend buf m).length ≤ 500 := by
  simp only [logAppend]
  split
  · simp only [List.length_drop, List.length_append, List.length_singleton]
    omega
  · rename_i hle
    simp only [not_lt, List.length_append, List.length_singleton] at hle
    simpa using hle

theorem foldl_logAppend_le (msgs buf : List LogMessage)
    (h : buf.length ≤ 500) : (List.foldl logAppend buf msgs).length ≤ 500 := by
  induction msgs generalizing buf with
  | nil => simpa using h
  | cons m ms ih => exact ih _ (logAppend_length_le _ _ h)

/-- **C4**. Starting from the empty buffer (as `start` resets it), every
sequence of appends leaves at most 500 entries; and an append hitting a
full buffer of 500 entries drops exactly the oldest 100 and appends the
new entry, leaving 401 entries. -/
theorem log_buffer_bounded (msgs buf : List LogMessage) (m : LogMessage)
    (h : buf.length = 500) :
    (List.foldl logAppend [] msgs).length ≤ 500 ∧
    logAppend buf m = buf.drop 100 ++ [m] ∧
    (logAppend buf m).length = 401 := by
  refine ⟨foldl_logAppend_le msgs [] (by simp), ?_, ?_⟩
  · simp only [logAppend]
    rw [if_pos (by simp [h]), List.drop_append_of_le_length (by simp [h])]
  · simp only [logAppend]
    rw [if_pos (by simp [h])]
    simp [h]

/-- Witness for C4 at a concrete full buffer of 500 entries. -/
theorem log_buffer_bounded_witness :
    (List.foldl logAppend [] []).length ≤ 500 ∧
    logAppend (List.replicate 500 exMsg) exMsg
      = (List.replicate 500 exMsg).drop 100 ++ [exMsg] ∧
    (logAppend (List.replicate 500 exMsg) exMsg).length = 401 :=
  log_buffer_bounded [] (List.replicate 500 exMsg) exMsg (List.length_replicate 500 exMsg)

/-! ## C8: selector-spec parsing -/

/-- **C8** (code_bug evidence). The spec's example parses as claimed,
but on an entry whose query part itself contains `=` (as in the README's
own documented XPath example `author=//span[@class=...]`), the JS
`split('=', 2)` keeps only the segment between the first and second `=`:
`"a=b=c"` yields the query `"b"`, not `"b=c"` as the claim requires. -/
theorem selector_entry_truncated_at_second_eq :
    parseSelectorEntry "a=b=c" = ("a", "b") ∧
    ("a", "b") ≠ (("a", "b=c") : String × String) ∧
    (splitSelectors "price=.price, .title").map parseSelectorEntry
      = [("price", ".price"), ("data", ".title")] := by decide

/-! ## C3: one output row per input row, in input order -/

/-- **C3**. For every input table and every result map (hence for every
completion order and any run of the engine, completed or cancelled), the
output table has exactly one row per input row, and the row at each
position carries the URL and BaseName of the input row at that same
position. -/
theorem output_rows_match_input_rows (rows : List InputRow) (m : ScrapeMap)
    (cfg : ScraperConfig) (envOf : String → PageEnv) (k : Nat) :
    (generateOutputRows rows m).length = rows.length ∧
    (∀ i : Nat, ((generateOutputRows rows m)[i]?).map OutputRow.URL
        = (rows[i]?).map InputRow.URL) ∧
    (∀ i : Nat, ((generateOutputRows rows m)[i]?).map OutputRow.BaseName
        = (rows[i]?).map InputRow.BaseName) ∧
    (runScrape cfg rows envOf k).length = rows.length := by
  refine ⟨by simp [generateOutputRows], ?_, ?_, by simp [runScrape, generateOutputRows]⟩
  · intro i
    cases h : rows[i]? with
    | none => simp [generateOutputRows, List.getElem?_map, h]
    | some row =>
      simp only [generateOutputRows, List.getElem?_map, h, Option.map_some']
      cases hm : mapGet m row.URL <;> simp [hm]
  · intro i
    cases h : rows[i]? with
    | none => simp [generateOutputRows, List.getElem?_map, h]
    | some row =>
      simp only [generateOutputRows, List.getElem?_map, h, Option.map_some']
      cases hm : mapGet m row.URL <;> simp [hm]

/-- `aiSmartScrape` never returns the empty string: the source's
truthiness check on the candidate text rejects it. -/
theorem aiSmartScrape_some_ne_empty (env : AiEnv) (key j : String)
    (h : aiSmartScrape env key = some j) : j ≠ "" := by
  rcases env with ⟨hp, hf⟩
  unfold aiSmartScrape at h
  split at h
  · simp at h
  · cases hp with
    | none => simp at h
    | some html =>
      cases hf with
      | netError => simp at h
      | httpError => simp at h
      | parsed t =>
        cases t with
        | none => simp at h
        | some jsonText =>
          simp only at h
          split at h
          · simp at h
          · rename_i hne
            cases h
            simpa using hne

/-! ## C5: mutually exclusive extraction strategies -/

/-- **C5**. When a non-empty row-level or global selector spec exists,
the result is entirely independent of the AI capability's outcome (the
AI is never consulted) and the extracted-data field is exactly the
selector-driven result (serialized when non-empty, otherwise the initial
empty object); otherwise, when AI fallback is enabled, the AI strategy
alone determines the extracted data; when neither condition holds, the
extracted-data field stays the empty object. -/
theorem extraction_strategy_exclusive (cfg : ScraperConfig) (row : InputRow)
    (env : PageEnv) (ai2 : AiEnv) :
    (selectorsProvided cfg row = true →
      scrapeUrl cfg row { env with ai := ai2 } = scrapeUrl cfg row env) ∧
    (selectorsProvided cfg row = true → env.navOk = true → env.screenshotOk = true →
      (scrapeUrl cfg row env).ScrapedData =
        (if (scrapeCustomData cfg row env.sel).length > 0 then
          jsonStringify (scrapeCustomData cfg row env.sel) else "\x7b\x7d")) ∧
    (selectorsProvided cfg row = false → cfg.useAISmartScrape = true →
      env.navOk = true → env.screenshotOk = true →
      (scrapeUrl cfg row env).ScrapedData =
        (match aiSmartScrape env.ai cfg.aiApiKey with
         | some j => j
         | none => "\x7b\x7d")) ∧
    (selectorsProvided cfg row = false → cfg.useAISmartScrape = false →
      (scrapeUrl cfg row env).ScrapedData = "\x7b\x7d") := by
  refine ⟨?_, ?_, ?_, ?_⟩
  · intro hsel
    cases hn : env.navOk <;> cases hs : env.screenshotOk <;>
      simp [scrapeUrl, hn, hs, hsel, initialResult]
  · intro hsel hn hs
    simp only [scrapeUrl, hn, hs, hsel, if_true]
    split <;> simp [initialResult]
  · intro hsel hai hn hs
    simp only [scrapeUrl, hn, hs, hsel, hai, Bool.false_eq_true, if_false, if_true]
    cases hr : aiSmartScrape env.ai cfg.aiApiKey with
    | none => simp [initialResult]
    | some j =>
      have hj : j ≠ "" := aiSmartScrape_some_ne_empty env.ai cfg.aiApiKey j hr
      simp [initialResult, hj]
  · intro hsel hai
    cases hn : env.navOk <;> cases hs : env.screenshotOk <;>
      simp [scrapeUrl, hn, hs, hsel, hai, initialResult]

/-- Witness for C5 at the concrete no-selector, no-AI configuration. -/
theorem extraction_strategy_exclusive_witness :
    (scrapeUrl exCfg rowA exEnv).ScrapedData = "\x7b\x7d" :=
  (extraction_strategy_exclusive exCfg rowA exEnv
    { pageHtml := none, fetch := .netError }).2.2.2 rfl rfl

/-! ## C6: only navigation and screenshot failures are URL-fatal -/

/-- **C6**. A URL's result is ERROR exactly when navigation or the
full-page screenshot failed, and then the thrown message is recorded; on
any other outcome the status is SUCCESS. The outcomes of the bypass
heuristics, the logo capture, the per-field selector extraction and the
AI call (all of which catch their own failures) have no influence on the
status. -/
theorem only_navigation_and_screenshot_fatal (cfg : ScraperConfig) (row : InputRow)
    (env : PageEnv) (b2 : BypassEnv) (l2 : LogoEnv) (s2 : SelEnv) (a2 : AiEnv) :
    ((scrapeUrl cfg row env).Status = .ERROR ↔
      (env.navOk = false ∨ env.screenshotOk = false)) ∧
    (env.navOk = false → (scrapeUrl cfg row env).ErrorMessage = env.navErrorMsg) ∧
    (env.navOk = true → env.screenshotOk = false →
      (scrapeUrl cfg row env).ErrorMessage = env.screenshotErrorMsg) ∧
    (env.navOk = true → env.screenshotOk = true →
      (scrapeUrl cfg row env).Status = .SUCCESS) ∧
    ((scrapeUrl cfg row { env with bypass := b2, logo := l2, sel := s2, ai := a2 }).Status
      = (scrapeUrl cfg row env).Status) := by
  refine ⟨?_, ?_, ?_, ?_, ?_⟩ <;>
    cases hn : env.navOk <;> cases hs : env.screenshotOk <;>
      simp [scrapeUrl, hn, hs, initialResult]

/-- Witness for C6 at a concrete navigation failure. -/
theorem only_navigation_and_screenshot_fatal_witness :
    (scrapeUrl exCfg rowA
      { exEnv with navOk := false, navErrorMsg := "net::ERR_TIMED_OUT" }).ErrorMessage
      = "net::ERR_TIMED_OUT" :=
  (only_navigation_and_screenshot_fatal exCfg rowA
    { exEnv with navOk := false, navErrorMsg := "net::ERR_TIMED_OUT" }
    exEnv.bypass exEnv.logo exEnv.sel exEnv.ai).2.1 rfl

/-! ## C7: the AI fallback is non-fatal and stored verbatim -/

/-- **C7**. With no selectors configured and AI fallback enabled: a
failed AI call (missing key, HTML-fetch failure, HTTP error, network
exception, or malformed/empty candidate) leaves the extracted-data field
as the empty object and cannot influence the status (which stays equal
under any other AI outcome); a successful call stores the returned JSON
text verbatim as the extracted-data field. -/
theorem ai_fallback_nonfatal_and_verbatim (cfg : ScraperConfig) (row : InputRow)
    (env : PageEnv) (a2 : AiEnv)
    (hsel : selectorsProvided cfg row = false) (hai : cfg.useAISmartScrape = true)
    (hn : env.navOk = true) (hs : env.screenshotOk = true) :
    (aiSmartScrape env.ai cfg.aiApiKey = none →
      (scrapeUrl cfg row env).ScrapedData = "\x7b\x7d") ∧
    (∀ j, aiSmartScrape env.ai cfg.aiApiKey = some j →
      (scrapeUrl cfg row env).ScrapedData = j) ∧
    ((scrapeUrl cfg row { env with ai := a2 }).Status = (scrapeUrl cfg row env).Status) ∧
    (cfg.aiApiKey = "" → aiSmartScrape env.ai cfg.aiApiKey = none) ∧
    (env.ai.pageHtml = none → aiSmartScrape env.ai cfg.aiApiKey = none) ∧
    (env.ai.fetch = .httpError → aiSmartScrape env.ai cfg.aiApiKey = none) ∧
    (env.ai.fetch = .netError → aiSmartScrape env.ai cfg.aiApiKey = none) ∧
    (env.ai.fetch = .parsed none → aiSmartScrape env.ai cfg.aiApiKey = none) := by
  refine ⟨?_, ?_, ?_, ?_, ?_, ?_, ?_, ?_⟩
  · intro hnone
    simp [scrapeUrl, hn, hs, hsel, hai, hnone, initialResult]
  · intro j hj
    have hne : j ≠ "" := aiSmartScrape_some_ne_empty env.ai cfg.aiApiKey j hj
    simp [scrapeUrl, hn, hs, hsel, hai, hj, hne, initialResult]
  · cases hn2 : env.navOk <;> cases hs2 : env.screenshotOk <;>
      simp [scrapeUrl, hn2, hs2, initialResult]
  · intro hkey
    simp [aiSmartScrape, hkey]
  · intro hp
    simp [aiSmartScrape, hp]
  · intro hf
    cases hq : env.ai.pageHtml <;> simp [aiSmartScrape, hf, hq]
  · intro hf
    cases hq : env.ai.pageHtml <;> simp [aiSmartScrape, hf, hq]
  · intro hf
    cases hq : env.ai.pageHtml <;> simp [aiSmartScrape, hf, hq]

/-- Witness for C7 at a concrete failing AI call (network error with a
configured key). -/
theorem ai_fallback_nonfatal_and_verbatim_witness :
    (scrapeUrl
      { exCfg with useAISmartScrape := true, aiApiKey := "k" } rowA exEnv).ScrapedData
      = "\x7b\x7d" :=
  (ai_fallback_nonfatal_and_verbatim
    { exCfg with useAISmartScrape := true, aiApiKey := "k" } rowA exEnv
    exEnv.ai rfl rfl rfl rfl).1 rfl

/-! ## Map and aggregation lemmas shared by C9 and C10 -/

theorem mapGet_eq_none_of_keys (m : ScrapeMap) (u : String)
    (h : ∀ key ∈ m.map Prod.fst, key ≠ u) : mapGet m u = none := by
  simp only [mapGet, Option.map_eq_none', List.find?_eq_none]
  intro p hp
  simp only [beq_iff_eq]
  exact h p.1 (List.mem_map_of_mem Prod.fst hp)

theorem mapSet_keys (m : ScrapeMap) (k : String) (v : ScrapeResult)
    (h : mapHas m k = true) : (mapSet m k v).map Prod.fst = m.map Prod.fst := by
  unfold mapSet
  rw [if_pos h, List.map_map]
  apply List.map_congr_left
  intro p _
  by_cases hp : (p.1 == k) = true
  · simp only [Function.comp_apply, if_pos hp]
    exact (eq_of_beq hp).symm
  · simp only [Function.comp_apply, if_neg hp]

theorem mem_mapSet (m : ScrapeMap) (k : String) (v : ScrapeResult)
    (p : String × ScrapeResult) (hp : p ∈ mapSet m k v) : p ∈ m ∨ p = (k, v) := by
  unfold mapSet at hp
  split at hp
  · rcases List.mem_map.1 hp with ⟨q, hq, hqe⟩
    by_cases hc : (q.1 == k) = true
    · rw [if_pos hc] at hqe
      right; exact hqe.symm
    · rw [if_neg hc] at hqe
      left; exact hqe ▸ hq
  · rcases List.mem_append.1 hp with h1 | h1
    · left; exact h1
    · right; simpa using h1

theorem dedupStep_keys_ne_blank (m : List (String × InputRow)) (row : InputRow)
    (h : ∀ p ∈ m, p.1 ≠ "") : ∀ p ∈ dedupStep m row, p.1 ≠ "" := by
  intro p hp
  unfold dedupStep at hp
  split at hp
  · rename_i hc
    rcases List.mem_append.1 hp with h1 | h1
    · exact h p h1
    · simp only [List.mem_singleton] at h1
      subst h1
      simp only [Bool.and_eq_true, bne_iff_ne, ne_eq] at hc
      exact hc.1
  · exact h p hp

theorem foldl_dedupStep_keys_ne_blank (rows : List InputRow)
    (init : List (String × InputRow)) (h : ∀ p ∈ init, p.1 ≠ "") :
    ∀ p ∈ rows.foldl dedupStep init, p.1 ≠ "" := by
  induction rows generalizing init with
  | nil => simpa using h
  | cons r rs ih => exact ih _ (dedupStep_keys_ne_blank init r h)

theorem uniqueUrls_keys_ne_blank (rows : List InputRow) :
    ∀ p ∈ uniqueUrlsOf rows, p.1 ≠ "" :=
  foldl_dedupStep_keys_ne_blank rows [] (by simp)

theorem dupStep_keys (sr fm : ScrapeMap) (ir : Nat × InputRow) :
    (dupStep sr fm ir).map Prod.fst = fm.map Prod.fst := by
  unfold dupStep
  split
  · rfl
  · rename_i hc
    simp only [Bool.or_eq_true, Bool.not_eq_true', not_or, Bool.not_eq_false] at hc
    cases hg : mapGet sr ir.2.URL with
    | none => rfl
    | some r => exact mapSet_keys fm ir.2.URL _ hc.2

theorem foldl_dupStep_keys (sr : ScrapeMap) (l : List (Nat × InputRow)) (fm : ScrapeMap) :
    (l.foldl (dupStep sr) fm).map Prod.fst = fm.map Prod.fst := by
  induction l generalizing fm with
  | nil => rfl
  | cons x xs ih => rw [List.foldl_cons, ih, dupStep_keys]

theorem buildFinalScrapeMap_keys (rows : List InputRow) (sr : ScrapeMap) :
    (buildFinalScrapeMap rows sr).map Prod.fst = sr.map Prod.fst :=
  foldl_dupStep_keys sr rows.enum sr

/-! ## C9: rows whose URL is missing from the result map -/

theorem generateOutputRows_missing (rows : List InputRow) (m : ScrapeMap)
    (i : Nat) (row : InputRow) (hi : rows[i]? = some row)
    (hm : mapGet m row.URL = none) :
    (generateOutputRows rows m)[i]? = some
      { BaseName := row.BaseName, URL := row.URL, CSSSelector := row.CSSSelector,
        XPathSelector := row.XPathSelector, ScreenshotFile := "", LogoFile := "",
        ScrapedData := "", Status := .ERROR,
        ErrorMessage := "Internal error: URL not found in results map." } := by
  simp [generateOutputRows, List.getElem?_map, hi, hm]

/-- **C9**. For every input row whose URL is absent from the result map
at aggregation time, the aggregator still emits exactly one output row
— carrying the row's own fields, status ERROR and the fixed
internal-error message — instead of failing; in particular this covers
rows with a blank URL in any (completed or cancelled) run, since blank
URLs are never enqueued and so never reach the result map. -/
theorem missing_url_rows_get_error_row (rows : List InputRow) (m : ScrapeMap)
    (i : Nat) (row : InputRow) (hi : rows[i]? = some row)
    (hm : mapGet m row.URL = none)
    (cfg : ScraperConfig) (envOf : String → PageEnv) (k j : Nat) (row2 : InputRow)
    (hj : rows[j]? = some row2) (hu : row2.URL = "") :
    (generateOutputRows rows m)[i]? = some
      { BaseName := row.BaseName, URL := row.URL, CSSSelector := row.CSSSelector,
        XPathSelector := row.XPathSelector, ScreenshotFile := "", LogoFile := "",
        ScrapedData := "", Status := .ERROR,
        ErrorMessage := "Internal error: URL not found in results map." } ∧
    ((runScrape cfg rows envOf k)[j]?).map OutputRow.Status = some .ERROR ∧
    ((runScrape cfg rows envOf k)[j]?).map OutputRow.ErrorMessage
      = some "Internal error: URL not found in results map." ∧
    (runScrape cfg rows envOf k).length = rows.length := by
  have hsrKeys : ∀ key ∈ (((uniqueUrlsOf rows).take k).map
      (fun p => (p.1, scrapeUrl cfg p.2 (envOf p.1)))).map Prod.fst, key ≠ "" := by
    intro key hkey
    rcases List.mem_map.1 hkey with ⟨q, hq, rfl⟩
    rcases List.mem_map.1 hq with ⟨q0, hq0, rfl⟩
    exact uniqueUrls_keys_ne_blank rows q0 (List.take_subset k _ hq0)
  have hget : mapGet (buildFinalScrapeMap rows (((uniqueUrlsOf rows).take k).map
      (fun p => (p.1, scrapeUrl cfg p.2 (envOf p.1))))) row2.URL = none := by
    apply mapGet_eq_none_of_keys
    rw [buildFinalScrapeMap_keys, hu]
    intro key hkey
    exact hsrKeys key hkey
  have hrun : runScrape cfg rows envOf k
      = generateOutputRows rows (buildFinalScrapeMap rows
          (((uniqueUrlsOf rows).take k).map
            (fun p => (p.1, scrapeUrl cfg p.2 (envOf p.1))))) := rfl
  have hout := generateOutputRows_missing rows _ j row2 hj hget
  refine ⟨generateOutputRows_missing rows m i row hi hm, ?_, ?_, ?_⟩
  · rw [hrun, hout]; rfl
  · rw [hrun, hout]; rfl
  · rw [hrun]; simp [generateOutputRows]

/-- A row with a blank URL, used by the C9 witness. -/
def blankRow : InputRow := { BaseName := "D", URL := "", CSSSelector := "", XPathSelector := "" }

/-- Witness for C9: a one-row table whose only row has a blank URL,
aggregated after a run that processed nothing. -/
theorem missing_url_rows_get_error_row_witness :
    ((runScrape exCfg [blankRow] (fun _ => exEnv) 0)[0]?).map OutputRow.Status
      = some .ERROR ∧
    ((runScrape exCfg [blankRow] (fun _ => exEnv) 0)[0]?).map OutputRow.ErrorMessage
      = some "Internal error: URL not found in results map." :=
  ⟨(missing_url_rows_get_error_row [blankRow] [] 0 blankRow rfl rfl exCfg
      (fun _ => exEnv) 0 0 blankRow rfl rfl).2.1,
   (missing_url_rows_get_error_row [blankRow] [] 0 blankRow rfl rfl exCfg
      (fun _ => exEnv) 0 0 blankRow rfl rfl).2.2.1⟩

/-! ## C10: the SKIPPED status is never produced -/

theorem scrapeUrl_status (cfg : ScraperConfig) (row : InputRow) (env : PageEnv) :
    (scrapeUrl cfg row env).Status = .SUCCESS ∨ (scrapeUrl cfg row env).Status = .ERROR := by
  cases hn : env.navOk <;> cases hs : env.screenshotOk <;>
    simp [scrapeUrl, hn, hs, initialResult]

theorem dupStep_values (sr fm : ScrapeMap) (ir : Nat × InputRow)
    (h : ∀ p ∈ fm, p.2.Status = .SUCCESS ∨ p.2.Status = .ERROR ∨ p.2.Status = .DUPLICATE) :
    ∀ p ∈ dupStep sr fm ir,
      p.2.Status = .SUCCESS ∨ p.2.Status = .ERROR ∨ p.2.Status = .DUPLICATE := by
  intro p hp
  unfold dupStep at hp
  split at hp
  · exact h p hp
  · cases hg : mapGet sr ir.2.URL with
    | none => rw [hg] at hp; exact h p hp
    | some r =>
      rw [hg] at hp
      rcases mem_mapSet _ _ _ p hp with h1 | h1
      · exact h p h1
      · subst h1
        right; right; rfl

theorem foldl_dupStep_values (sr : ScrapeMap) (l : List (Nat × InputRow)) (fm : ScrapeMap)
    (h : ∀ p ∈ fm, p.2.Status = .SUCCESS ∨ p.2.Status = .ERROR ∨ p.2.Status = .DUPLICATE) :
    ∀ p ∈ l.foldl (dupStep sr) fm,
      p.2.Status = .SUCCESS ∨ p.2.Status = .ERROR ∨ p.2.Status = .DUPLICATE := by
  induction l generalizing fm with
  | nil => simpa using h
  | cons x xs ih => exact ih _ (dupStep_values sr fm x h)

theorem mapGet_mem (m : ScrapeMap) (u : String) (r : ScrapeResult)
    (h : mapGet m u = some r) : ∃ p ∈ m, p.2 = r := by
  unfold mapGet at h
  cases hf : m.find? (fun p => p.1 == u) with
  | none => rw [hf] at h; simp at h
  | some p =>
    rw [hf] at h
    simp only [Option.map_some', Option.some_inj] at h
    exact ⟨p, List.mem_of_find?_eq_some hf, h⟩

/-- **C10**. Every row of the output table of any run (any processed
prefix of the unique-URL queue, so completed and cancelled runs alike)
has status SUCCESS, ERROR or DUPLICATE — never SKIPPED — and the
per-URL pipeline itself only ever produces SUCCESS or ERROR. -/
theorem no_skipped_status (cfg : ScraperConfig) (rows : List InputRow)
    (envOf : String → PageEnv) (k : Nat) (o : OutputRow)
    (ho : o ∈ runScrape cfg rows envOf k) (row : InputRow) (env : PageEnv) :
    (o.Status = .SUCCESS ∨ o.Status = .ERROR ∨ o.Status = .DUPLICATE) ∧
    ((scrapeUrl cfg row env).Status = .SUCCESS ∨ (scrapeUrl cfg row env).Status = .ERROR) := by
  refine ⟨?_, scrapeUrl_status cfg row env⟩
  have hsr : ∀ p ∈ ((uniqueUrlsOf rows).take k).map
      (fun p => (p.1, scrapeUrl cfg p.2 (envOf p.1))),
      p.2.Status = .SUCCESS ∨ p.2.Status = .ERROR ∨ p.2.Status = .DUPLICATE := by
    intro p hp
    rcases List.mem_map.1 hp with ⟨q, _, rfl⟩
    rcases scrapeUrl_status cfg q.2 (envOf q.1) with h1 | h1
    · exact Or.inl h1
    · exact Or.inr (Or.inl h1)
  have hfm := foldl_dupStep_values
    (((uniqueUrlsOf rows).take k).map (fun p => (p.1, scrapeUrl cfg p.2 (envOf p.1))))
    rows.enum
    (((uniqueUrlsOf rows).take k).map (fun p => (p.1, scrapeUrl cfg p.2 (envOf p.1))))
    hsr
  have ho2 : o ∈ generateOutputRows rows (buildFinalScrapeMap rows
      (((uniqueUrlsOf rows).take k).map (fun p => (p.1, scrapeUrl cfg p.2 (envOf p.1))))) := ho
  rcases List.mem_map.1 ho2 with ⟨row0, _, rfl⟩
  cases hg : mapGet (buildFinalScrapeMap rows
      (((uniqueUrlsOf rows).take k).map (fun p => (p.1, scrapeUrl cfg p.2 (envOf p.1)))))
      row0.URL with
  | none => right; left; simp [hg]
  | some r =>
    rcases mapGet_mem _ _ _ hg with ⟨p, hpmem, rfl⟩
    have hv := hfm p hpmem
    simpa [hg] using hv

/-- The first output row of the concrete completed three-row run. -/
def exOut : OutputRow :=
  { BaseName := "A", URL := "u1", CSSSelector := "", XPathSelector := "",
    ScreenshotFile := "images/A.png", LogoFile := "", ScrapedData := "\x7b\x7d",
    Status := .DUPLICATE,
    ErrorMessage := "Result shared from first instance of this URL." }

/-- Witness for C10 on the concrete completed three-row run. -/
theorem no_skipped_status_witness :
    (exOut.Status = .SUCCESS ∨ exOut.Status = .ERROR ∨ exOut.Status = .DUPLICATE) ∧
    ((scrapeUrl exCfg rowA exEnv).Status = .SUCCESS ∨
      (scrapeUrl exCfg rowA exEnv).Status = .ERROR) :=
  no_skipped_status exCfg [rowA, rowB, rowC] (fun _ => exEnv) 2 exOut
    (by decide) rowA exEnv

end Scraper
